import Mathlib

/-!
Verification development for the TinyTales story-generation pipeline
(`src/llm/tools/generate_story/tool.py`, `image_generator.py`,
`schemas.py`, and the route/manager wiring they use).

The Python code is shallowly embedded: JSON values become an inductive
`Json`, `json.loads` becomes a fuel-indexed strict parser, the regex
repairs of `GenerateStoryTool.execute` become character-list rewriters,
and the effectful calls (LLM invocation, the two image-provider HTTP
calls) are parameterised by an `Env` record describing the outcome of
each upstream interaction.  Exceptions are modelled with `Except PyErr`.
-/

/-- Python exception kinds that the embedded code can raise. -/
inductive PyErr where
  | typeError
  | attributeError
  | valueError
deriving DecidableEq

/-- JSON values as produced by Python's `json.loads`.  Numbers are kept as
their integer part (`int`); fractional/exponent syntax is consumed by the
parser but truncated — no claim inspects a non-integer numeric value.
Objects keep Python dict semantics: unique keys, insertion ordered,
re-assignment of an existing key keeps its position. -/
inductive Json where
  | null
  | bool (b : Bool)
  | num (n : Int)
  | str (s : String)
  | arr (elems : List Json)
  | obj (fields : List (String × Json))

/-- The left-brace character (avoids brace literals in the text). -/
def lbrace : Char := Char.ofNat 123

/-- The right-brace character. -/
def rbrace : Char := Char.ofNat 125

/-- Python's `\s` class over ASCII (space, tab, newline, CR, VT, FF). -/
def isPySpace (c : Char) : Bool :=
  c == ' ' || c == '\t' || c == '\n' || c == '\r' ||
  c == Char.ofNat 11 || c == Char.ofNat 12

/-- JSON inter-token whitespace accepted by Python's `json` module. -/
def isJsonWs (c : Char) : Bool :=
  c == ' ' || c == '\t' || c == '\n' || c == '\r'

/-- Assoc-list lookup on an object's fields (dict lookup). -/
def lookupKey (kvs : List (String × Json)) (k : String) : Option Json :=
  match kvs with
  | [] => none
  | (k', v) :: rest => if k' = k then some v else lookupKey rest k

/-- Python dict insertion: replace the value at an existing key in place,
otherwise append the pair. -/
def insertKey (kvs : List (String × Json)) (k : String) (v : Json) :
    List (String × Json) :=
  match kvs with
  | [] => [(k, v)]
  | (k', v') :: rest =>
    if k' = k then (k', v) :: rest else (k', v') :: insertKey rest k v

/-- Python `d.get(k, default)` on an object; on non-objects call sites branch on
the shape first (mirroring Python's attribute lookup). -/
def Json.getD (j : Json) (k : String) (d : Json) : Json :=
  match j with
  | .obj kvs => (lookupKey kvs k).getD d
  | _ => d

/-- Python `d[k] = v` on an object; identity on other shapes (call sites only
assign into dicts). -/
def Json.set (j : Json) (k : String) (v : Json) : Json :=
  match j with
  | .obj kvs => .obj (insertKey kvs k v)
  | _ => j

/-- Whether an object carries a key (`k in d`). -/
def Json.hasKey (j : Json) (k : String) : Bool :=
  match j with
  | .obj kvs => (lookupKey kvs k).isSome
  | _ => false

/-- Python truthiness of a JSON value. -/
def Json.truthy : Json → Bool
  | .null => false
  | .bool b => b
  | .num n => n != 0
  | .str s => !s.isEmpty
  | .arr xs => !xs.isEmpty
  | .obj kvs => !kvs.isEmpty

/-- Python `str(...)`-style rendering used where a JSON value flows into an
f-string or a text argument (only the string case is ever exercised by
the claims). -/
def Json.pyStr : Json → String
  | .null => "None"
  | .bool b => if b then "True" else "False"
  | .num n => toString n
  | .str s => s
  | .arr _ => "[...]"
  | .obj _ => "dict"

/-- Lift Python `Optional[str]` into a JSON field value (`None` ↦ null). -/
def jsonOfOpt : Option String → Json
  | some s => .str s
  | none => .null

/-- Hex digit value, for `\uXXXX` escapes. -/
def hexVal (c : Char) : Option Nat :=
  if c.isDigit then some (c.toNat - 48)
  else if 'a' ≤ c ∧ c ≤ 'f' then some (c.toNat - 87)
  else if 'A' ≤ c ∧ c ≤ 'F' then some (c.toNat - 55)
  else none

/-- Single-character escape map of Python's strict JSON decoder
(`\uXXXX` is handled separately). -/
def escMap (e : Char) : Option Char :=
  if e == '"' then some '"'
  else if e == '\\' then some '\\'
  else if e == '/' then some '/'
  else if e == 'b' then some (Char.ofNat 8)
  else if e == 'f' then some (Char.ofNat 12)
  else if e == 'n' then some '\n'
  else if e == 'r' then some '\r'
  else if e == 't' then some '\t'
  else none

/-- Parse the body of a JSON string (after the opening quote), handling
the escape sequences Python's strict decoder accepts and rejecting raw
control characters. Returns the decoded characters and the rest. -/
def parseStrChars : List Char → Option (List Char × List Char)
  | [] => none
  | c :: rest =>
    if c == '"' then some ([], rest)
    else if c == '\\' then
      match rest with
      | [] => none
      | 'u' :: h1 :: h2 :: h3 :: h4 :: rest3 =>
        match hexVal h1, hexVal h2, hexVal h3, hexVal h4 with
        | some a, some b, some cc, some d =>
          match parseStrChars rest3 with
          | some (tail, rem) =>
            some (Char.ofNat (a * 4096 + b * 256 + cc * 16 + d) :: tail, rem)
          | none => none
        | _, _, _, _ => none
      | e :: rest2 =>
        match escMap e with
        | some d =>
          match parseStrChars rest2 with
          | some (tail, rem) => some (d :: tail, rem)
          | none => none
        | none => none
    else if c.toNat < 32 then none
    else
      match parseStrChars rest with
      | some (tail, rem) => some (c :: tail, rem)
      | none => none

/-- Take a run of decimal digits. -/
def takeDigits (cs : List Char) : List Char × List Char :=
  match cs with
  | [] => ([], [])
  | c :: rest =>
    if c.isDigit then
      let (ds, rem) := takeDigits rest
      (c :: ds, rem)
    else ([], cs)

/-- Digits to a natural number. -/
def digitsToNat (ds : List Char) : Nat :=
  ds.foldl (fun acc c => acc * 10 + (c.toNat - 48)) 0

/-- Parse a JSON number: `-? (0 | [1-9][0-9]*)` with optional fraction and
exponent (consumed, value truncated to the integer part). -/
def parseNum (cs : List Char) : Option (Int × List Char) :=
  let (neg, cs1) :=
    match cs with
    | c :: rest => if c == '-' then (true, rest) else (false, cs)
    | [] => (false, cs)
  match takeDigits cs1 with
  | ([], _) => none
  | (ds, rest) =>
    if ds.length > 1 ∧ ds.headD '0' == '0' then none
    else
      let intPart : Int := Int.ofNat (digitsToNat ds)
      let afterFrac :=
        match rest with
        | c :: r2 =>
          if c == '.' then
            match takeDigits r2 with
            | ([], _) => none
            | (_, r3) => some r3
          else some rest
        | [] => some rest
      match afterFrac with
      | none => none
      | some rest2 =>
        let afterExp :=
          match rest2 with
          | c :: r3 =>
            if c == 'e' || c == 'E' then
              let r4 :=
                match r3 with
                | s :: r5 => if s == '+' || s == '-' then r5 else r3
                | [] => r3
              match takeDigits r4 with
              | ([], _) => none
              | (_, r5) => some r5
            else some rest2
          | [] => some rest2
        match afterExp with
        | none => none
        | some rest3 => some (if neg then -intPart else intPart, rest3)

/-- Match a literal keyword. -/
def matchLit (lit : List Char) (cs : List Char) : Option (List Char) :=
  match lit, cs with
  | [], rest => some rest
  | l :: ls, c :: rest => if c == l then matchLit ls rest else none
  | _ :: _, [] => none

mutual

/-- Strict JSON value parser (fuel-indexed; fuel ≥ twice the input length
suffices, see `jsonLoads`). Mirrors Python's `json.loads` grammar. -/
def parseValue : Nat → List Char → Option (Json × List Char)
  | 0, _ => none
  | fuel + 1, cs =>
    match cs.dropWhile isJsonWs with
    | [] => none
    | c :: rest =>
      if c == '"' then
        match parseStrChars rest with
        | some (chars, rem) => some (.str (String.mk chars), rem)
        | none => none
      else if c == lbrace then
        match (rest.dropWhile isJsonWs) with
        | d :: rest2 =>
          if d == rbrace then some (.obj [], rest2)
          else parseFields fuel rest []
        | [] => none
      else if c == '[' then
        match (rest.dropWhile isJsonWs) with
        | d :: rest2 =>
          if d == ']' then some (.arr [], rest2)
          else parseElems fuel rest []
        | [] => none
      else if c == 't' then
        match matchLit ['r', 'u', 'e'] rest with
        | some rem => some (.bool true, rem)
        | none => none
      else if c == 'f' then
        match matchLit ['a', 'l', 's', 'e'] rest with
        | some rem => some (.bool false, rem)
        | none => none
      else if c == 'n' then
        match matchLit ['u', 'l', 'l'] rest with
        | some rem => some (.null, rem)
        | none => none
      else if c == '-' || c.isDigit then
        match parseNum (c :: rest) with
        | some (n, rem) => some (.num n, rem)
        | none => none
      else none

/-- Parse the elements of a non-empty array (after the opening bracket). -/
def parseElems : Nat → List Char → List Json → Option (Json × List Char)
  | 0, _, _ => none
  | fuel + 1, cs, acc =>
    match parseValue fuel cs with
    | none => none
    | some (v, rem) =>
      match rem.dropWhile isJsonWs with
      | c :: rest =>
        if c == ',' then parseElems fuel rest (acc ++ [v])
        else if c == ']' then some (.arr (acc ++ [v]), rest)
        else none
      | [] => none

/-- Parse the fields of a non-empty object (after the opening brace). -/
def parseFields : Nat → List Char → List (String × Json) →
    Option (Json × List Char)
  | 0, _, _ => none
  | fuel + 1, cs, acc =>
    match cs.dropWhile isJsonWs with
    | c :: rest =>
      if c == '"' then
        match parseStrChars rest with
        | none => none
        | some (kchars, rem) =>
          match rem.dropWhile isJsonWs with
          | d :: rest2 =>
            if d == ':' then
              match parseValue fuel rest2 with
              | none => none
              | some (v, rem2) =>
                let acc' := insertKey acc (String.mk kchars) v
                match rem2.dropWhile isJsonWs with
                | e :: rest3 =>
                  if e == ',' then parseFields fuel rest3 acc'
                  else if e == rbrace then some (.obj acc', rest3)
                  else none
                | [] => none
            else none
          | [] => none
      else none
    | [] => none

end

/-- Python `json.loads`: whitespace, one value, whitespace, end of input. -/
def jsonLoads (cs : List Char) : Option Json :=
  match parseValue (2 * cs.length + 8) cs with
  | some (v, rem) => if (rem.dropWhile isJsonWs).isEmpty then some v else none
  | none => none

/-- One token of the repair patterns of `GenerateStoryTool.execute`
(lines 271–276): a literal character or a greedy whitespace run. -/
inductive Pat where
  | lit (c : Char)
  | ws

/-- Match a pattern at the head of the input; returns the rest after the
match.  In every pattern a `ws` is followed by a non-space literal, so
greedy whitespace consumption is exact. -/
def matchPat : List Pat → List Char → Option (List Char)
  | [], cs => some cs
  | .lit c :: ps, d :: cs => if d == c then matchPat ps cs else none
  | .lit _ :: _, [] => none
  | .ws :: ps, cs => matchPat ps (cs.dropWhile isPySpace)

/-- Model of `re.sub(pattern, repl, s)`: left-to-right non-overlapping rewriting
(fuel-indexed; fuel = input length suffices since each step either
consumes the whole match or one character). -/
def subst (pat : List Pat) (repl : List Char) : Nat → List Char → List Char
  | 0, cs => cs
  | _ + 1, [] => []
  | fuel + 1, c :: cs =>
    match matchPat pat (c :: cs) with
    | some rest => repl ++ subst pat repl fuel rest
    | none => c :: subst pat repl fuel cs

/-- Literal characters of a pattern fragment. -/
def litsOf (s : String) : List Pat := s.data.map Pat.lit

/-- Repair 1 (line 271): insert the missing comma between adjacent scene
objects — pattern `}\s*{\s*"scene_number"`, replacement
`},{"scene_number"`. -/
def fixSceneComma (cs : List Char) : List Char :=
  subst ([.lit rbrace, .ws, .lit lbrace, .ws] ++ litsOf "\"scene_number\"")
    ((rbrace :: ',' :: lbrace :: []) ++ "\"scene_number\"".data)
    cs.length cs

/-- Repair 2 (line 273): collapse `}\s*}\s*]` to `}]`. -/
def fixDoubleClose (cs : List Char) : List Char :=
  subst [.lit rbrace, .ws, .lit rbrace, .ws, .lit ']']
    [rbrace, ']'] cs.length cs

/-- Repair 3 (line 275): strip a trailing comma before `}`. -/
def fixTrailingCommaBrace (cs : List Char) : List Char :=
  subst [.lit ',', .ws, .lit rbrace] [rbrace] cs.length cs

/-- Repair 4 (line 276): strip a trailing comma before `]`. -/
def fixTrailingCommaBracket (cs : List Char) : List Char :=
  subst [.lit ',', .ws, .lit ']'] [']'] cs.length cs

/-- The four repairs in source order (lines 271–276). -/
def fixJson (cs : List Char) : List Char :=
  fixTrailingCommaBracket (fixTrailingCommaBrace (fixDoubleClose (fixSceneComma cs)))

/-- Model of the brace-span search of line 265 (`re.search` of a
greedy dot-all pattern bracketed by braces): the span from the first
left brace to the last right brace, when the latter lies after the
former. -/
def braceSpan (cs : List Char) : Option (List Char) :=
  match cs.findIdx? (· == lbrace), cs.reverse.findIdx? (· == rbrace) with
  | some i, some jr =>
    let j := cs.length - 1 - jr
    if i < j then some ((cs.drop i).take (j - i + 1)) else none
  | _, _ => none

/-- The JSON-extraction retry of `execute` (lines 262–281): isolate the
brace span, apply the textual repairs, decode once.  `none` models the
paths that raise inside the retry block (no span found, or the repaired
text still failing to decode), which line 282 catches. -/
def extractRepair (result : String) : Option Json :=
  match braceSpan result.data with
  | none => none
  | some span => jsonLoads (fixJson span)

/-- Outcome of one image-provider HTTP call (`image_generator.py`):
success status with a non-empty artifact list carrying a base64 payload,
success status with missing/empty data, a non-success status, or a raised
transport error. -/
inductive HttpResp where
  | ok (b64 : String)
  | okNoData
  | httpStatus (code : Nat)
  | exn

/-- Upstream world of one pipeline invocation: which provider credentials
are configured (`OPENAI_API_KEY` / `STABILITY_API_KEY`), the outcome of
each provider call keyed by its prompt and style arguments, and the
outcomes of the two text-generation entry points (`llm_client.invoke` in
`execute`, the LangChain `chain.ainvoke` in `_generate_story_with_llm`),
`.error` modelling a raised exception such as a timeout. -/
structure Env where
  openaiKey : Bool
  stabilityKey : Bool
  dalleHttp : String → String → HttpResp
  stabilityHttp : String → String → HttpResp
  llm : Except Unit String
  chain : Except Unit String

/-- Embedding of `ImageGenerator._generate_with_dalle` (lines 52–82): status 200 with
data yields the data-URL payload, every other outcome (non-200 status,
empty data, raised transport error — all caught internally) yields
`None`. -/
def dalleResult (env : Env) (prompt : String) (style : String) : Option String :=
  match env.dalleHttp prompt style with
  | .ok b64 => some ("data:image/png;base64," ++ b64)
  | _ => none

/-- Embedding of `ImageGenerator._generate_with_stability` (lines 84–121): same shape
as DALL-E (the base64 decode/re-encode of the artifact is the identity on
the payload). -/
def stabilityResult (env : Env) (prompt : String) (style : String) : Option String :=
  match env.stabilityHttp prompt style with
  | .ok b64 => some ("data:image/png;base64," ++ b64)
  | _ => none

/-- Python `str.split()` — split on whitespace runs, dropping empty words. -/
def splitWordsAux : List Char → List Char → List String
  | [], acc => if acc.isEmpty then [] else [String.mk acc.reverse]
  | c :: rest, acc =>
    if isPySpace c then
      if acc.isEmpty then splitWordsAux rest []
      else String.mk acc.reverse :: splitWordsAux rest []
    else splitWordsAux rest (c :: acc)

/-- The words of the prompt (line 148). -/
def splitWords (s : String) : List String := splitWordsAux s.data []

/-- The line-wrapping loop of `_generate_mock_image` (lines 149–161):
accumulate words into a line until it would exceed 30 characters. -/
def wrapLines (words : List String) : List String :=
  let p := words.foldl
    (fun (p : List String × String) w =>
      let test := if p.2 = "" then w else p.2 ++ " " ++ w
      if test.length > 30 then (p.1 ++ [p.2], w) else (p.1, test))
    ([], "")
  if p.2 = "" then p.1 else p.1 ++ [p.2]

/-- One row of the fixed blue gradient background (lines 134–138);
`int()` truncation of `135 + (y/512)*40` etc. is natural division. -/
def gradientRow (y : Nat) : Nat × Nat × Nat :=
  (135 + y * 40 / 512, 206 + y * 20 / 512, 235 + y * 20 / 512)

/-- The full 512-row decorative background — a constant, independent of
both the description and the style. -/
def gradientRows : List (Nat × Nat × Nat) := (List.range 512).map gradientRow

/-- The drawing produced by `ImageGenerator._generate_mock_image`
(lines 123–193) before PNG encoding: the gradient background, the wrapped
description lines (drawn centred — the pixel positions are a fixed
function of the line list and the constant font metrics), and the style
caption drawn at the bottom-left. -/
structure MockImage where
  width : Nat
  height : Nat
  background : List (Nat × Nat × Nat)
  lines : List String
  styleText : String

/-- Embedding of `_generate_mock_image`, up to PNG encoding. -/
def mockRender (prompt : String) (style : String) : MockImage :=
  { width := 512
  , height := 512
  , background := gradientRows
  , lines := wrapLines (splitWords prompt)
  , styleText := "Style: " ++ style }

/-- Deterministic stand-in for `base64.b64encode(PNG(image))`: an
injective-enough serialisation of the drawing (the real payload is an
opaque non-empty byte string; no claim inspects its contents). -/
def mockB64 (img : MockImage) : String :=
  String.intercalate "\n" img.lines ++ "|" ++ img.styleText

/-- The data-URL payload returned by `_generate_mock_image`. -/
def mockPayload (prompt : String) (style : String) : String :=
  "data:image/png;base64," ++ mockB64 (mockRender prompt style)

/-- Embedding of `ImageGenerator.generate_image` (lines 24–50): DALL-E if its key is
configured, else Stability if its key is configured, else the local mock.
The `except` clause at line 48 only catches raised exceptions; both
provider helpers catch their own errors and return `None` instead of
raising, so a provider failure propagates as `None` here. -/
def generate_image (env : Env) (prompt : String) (style : String) : Option String :=
  if env.openaiKey then dalleResult env prompt style
  else if env.stabilityKey then stabilityResult env prompt style
  else some (mockPayload prompt style)

/-- Model of `GenerateStoryRequest` (`schemas.py`): the optional fields carry their
pydantic defaults once validated; the scene count is modelled as a
natural number (the data model specifies a positive integer). -/
structure GenerateStoryRequest where
  username : String
  prompt : String
  genre : String
  age_group : String
  scene_count : Nat

/-- Model of `StoryScene` (`schemas.py`). -/
structure StoryScene where
  id : Nat
  description : String
  imagePrompt : String
  imageUrl : Option String := none

/-- Model of `Story` (`schemas.py`). -/
structure Story where
  title : String
  scenes : List StoryScene

/-- Embedding of `_get_scene_description` (lines 127–136): fixed library of generic
descriptions keyed by ordinal (the prompt argument is unused in the
source too). -/
def get_scene_description (scene_id : Nat) (_prompt : String) : String :=
  if scene_id = 1 then "The beginning of our adventure"
  else if scene_id = 2 then "The journey begins"
  else if scene_id = 3 then "A challenge appears"
  else if scene_id = 4 then "Overcoming obstacles"
  else if scene_id = 5 then "The happy ending"
  else "Scene " ++ toString scene_id ++ " of the story"

/-- Embedding of `_get_image_prompt` (lines 138–147). -/
def get_image_prompt (scene_id : Nat) : String :=
  if scene_id = 1 then "beginning, colorful, detailed"
  else if scene_id = 2 then "journey, adventure, vibrant"
  else if scene_id = 3 then "challenge, dramatic, intense"
  else if scene_id = 4 then "victory, triumph, bright"
  else if scene_id = 5 then "ending, happy, peaceful"
  else "scene, colorful, detailed"

/-- The templated scene built both by `_generate_mock_story`
(lines 114–119) and by the backfill loop of `_parse_llm_response`
(lines 373–379) — the two sites use identical f-strings. -/
def template_scene (req : GenerateStoryRequest) (n : Nat) : StoryScene :=
  { id := n
  , description := "Scene " ++ toString n ++ ": " ++ get_scene_description n req.prompt
  , imagePrompt := req.prompt ++ " - scene " ++ toString n ++ ", " ++
      get_image_prompt n ++ ", " ++ req.genre ++ " style, colorful, detailed" }

/-- Embedding of `_generate_mock_story` (lines 109–125). -/
def generate_mock_story (req : GenerateStoryRequest) : Story :=
  { title := "Adventure of " ++ req.prompt
  , scenes := (List.range req.scene_count).map (fun i => template_scene req (i + 1)) }

/-- Embedding of `_validate_story` (lines 149–163) as a predicate: `true` iff it does
not raise (scene count matches and every scene has non-empty description
and image prompt). -/
def validate_story (story : Story) (req : GenerateStoryRequest) : Bool :=
  story.scenes.length == req.scene_count &&
  story.scenes.all (fun s => !s.description.isEmpty && !s.imagePrompt.isEmpty)

/-- Pydantic coercion of a JSON field into a `str`-typed model field:
only a JSON string is accepted, everything else makes model construction
raise (caught by the caller's fallback). -/
def jsonToStr : Json → Except PyErr String
  | .str s => .ok s
  | _ => .error .typeError

/-- The scene-building loop of `_parse_llm_response` (lines 363–370):
`for i, scene_data in enumerate(scenes_data)` constructing
`StoryScene(id=i+1, ...)` with templated defaults for missing fields.
`i` is the running enumeration index. -/
def buildScenes (req : GenerateStoryRequest) :
    Nat → List Json → Except PyErr (List StoryScene)
  | _, [] => .ok []
  | i, sd :: rest =>
    match sd with
    | .obj _ =>
      match jsonToStr (sd.getD "description" (.str ("Scene " ++ toString (i + 1)))) with
      | .error e => .error e
      | .ok d =>
        match jsonToStr (sd.getD "imagePrompt"
            (.str (req.prompt ++ " - scene " ++ toString (i + 1)))) with
        | .error e => .error e
        | .ok ip =>
          match buildScenes req (i + 1) rest with
          | .error e => .error e
          | .ok rest2 => .ok ({ id := i + 1, description := d, imagePrompt := ip } :: rest2)
    | _ => .error .attributeError

/-- The backfill loop of `_parse_llm_response` (lines 373–379):
`while len(scenes) < request.scene_count` append a templated scene with
the next ordinal.  Fuel-indexed; `scene_count` iterations always
suffice since each pass grows the list by one. -/
def padScenesAux (req : GenerateStoryRequest) :
    Nat → List StoryScene → List StoryScene
  | 0, scenes => scenes
  | fuel + 1, scenes =>
    if scenes.length < req.scene_count then
      padScenesAux req fuel (scenes ++ [template_scene req (scenes.length + 1)])
    else scenes

/-- The backfill loop with its sufficient fuel. -/
def padScenes (req : GenerateStoryRequest) (scenes : List StoryScene) :
    List StoryScene :=
  padScenesAux req req.scene_count scenes

/-- Embedding of `_parse_llm_response` (lines 354–388): title and scenes extracted
with defaults, backfill to the requested count, truncation to the
requested count (`scenes[:request.scene_count]`).  `.error` models the
`ValueError` re-raised at line 388 after any internal exception. -/
def parse_llm_response (storyJson : Json) (req : GenerateStoryRequest) :
    Except PyErr Story :=
  match storyJson with
  | .obj _ =>
    match jsonToStr (storyJson.getD "title" (.str ("Adventure of " ++ req.prompt))) with
    | .error e => .error e
    | .ok title =>
      match storyJson.getD "scenes" (.arr []) with
      | .arr scenesData =>
        match buildScenes req 0 scenesData with
        | .error e => .error e
        | .ok scenes =>
          .ok { title := title, scenes := (padScenes req scenes).take req.scene_count }
      | _ => .error .typeError
  | _ => .error .attributeError

/-- Embedding of `_generate_story_with_llm` (lines 296–350): chain invocation, strict
JSON decode, parse, validate; every failure is caught and falls back to
`_generate_mock_story`. -/
def generate_story_with_llm (env : Env) (req : GenerateStoryRequest) : Story :=
  match env.chain with
  | .error _ => generate_mock_story req
  | .ok result =>
    match jsonLoads result.data with
    | none => generate_mock_story req
    | some storyJson =>
      match parse_llm_response storyJson req with
      | .error _ => generate_mock_story req
      | .ok story =>
        if validate_story story req then story else generate_mock_story req

/-- Model of `GenerateStoryResponse` as returned by the `create` route. -/
structure RouteResponse where
  success : Bool
  data : Option Story
  error : Option String

/-- The `create_story` route (lines 52–85) composed with
`_generate_story` (lines 92–107): the story is built (never raising),
then re-validated; a validation failure raises `HTTPException`, which the
route handler catches and turns into a `success=False` response. -/
def create_story (env : Env) (req : GenerateStoryRequest) : RouteResponse :=
  let story := generate_story_with_llm env req
  if validate_story story req then
    { success := true, data := some story, error := none }
  else
    { success := false, data := none, error := some "Failed to generate story" }

/-- Python's `dict.get` as a positional-argument call: one argument is a
key lookup with `None` default, two arguments use the given default, any
other arity raises `TypeError: get expected at most 2 arguments`; on a
non-dict receiver attribute lookup raises `AttributeError` first. -/
def pyDictGet (d : Json) (args : List Json) : Except PyErr Json :=
  match d with
  | .obj _ =>
    match args with
    | [k] => .ok (match k with | .str s => d.getD s .null | _ => .null)
    | [k, dflt] => .ok (match k with | .str s => d.getD s dflt | _ => dflt)
    | _ => .error .typeError
  | _ => .error .attributeError

/-- Body of the per-scene image loop of `execute` (lines 226–250) for one
scene.  A truthy `story_text` reaches the malformed three-positional-
argument lookup of `animated`, `theme`, `digital art` on the story dict
(line 233), whose exception aborts the loop; otherwise lines 243–250 run:
a truthy existing image is re-assigned unchanged, an absent or falsy one
is replaced by a synthesis from the request prompt with style
`digital art` (which may itself yield `None`, stored as JSON null). -/
def populate_scene (env : Env) (req : GenerateStoryRequest)
    (storyData : Json) (scene : Json) : Except PyErr Json :=
  match scene with
  | .obj _ =>
    let sceneText := scene.getD "story_text" (.str "")
    let step1 : Except PyErr Json :=
      if sceneText.truthy then
        match pyDictGet storyData [.str "animated", .str "theme", .str "digital art"] with
        | .error e => .error e
        | .ok style =>
          match generate_image env sceneText.pyStr style.pyStr with
          | some s =>
            if s.isEmpty then
              .ok (scene.set "image" (jsonOfOpt (generate_image env req.prompt "digital art")))
            else .ok (scene.set "image" (.str s))
          | none =>
            .ok (scene.set "image" (jsonOfOpt (generate_image env req.prompt "digital art")))
      else
        .ok scene
    match step1 with
    | .error e => .error e
    | .ok scene1 =>
      let sceneImage := scene1.getD "image" .null
      if sceneImage.truthy then
        .ok (scene1.set "image" sceneImage)
      else
        .ok (scene1.set "image" (jsonOfOpt (generate_image env req.prompt "digital art")))
  | _ => .error .attributeError

/-- The image loop of `execute` over all scenes, left to right, stopping
at the first raised exception. -/
def populate_scenes (env : Env) (req : GenerateStoryRequest)
    (storyData : Json) : List Json → Except PyErr (List Json)
  | [] => .ok []
  | s :: rest =>
    match populate_scene env req storyData s with
    | .error e => .error e
    | .ok s2 =>
      match populate_scenes env req storyData rest with
      | .error e => .error e
      | .ok rest2 => .ok (s2 :: rest2)

/-- Model of the scene collection at lines 224–226 (`scenes` fetched with
an empty-list default, then iterated)
(lines 224–226): a list iterates its elements, a string its characters, a
dict its keys; other shapes raise `TypeError` at the `for`; a non-dict
`story_data` raises `AttributeError` at the `.get`. -/
def iterScenes (storyData : Json) : Except PyErr (List Json) :=
  match storyData with
  | .obj _ =>
    match storyData.getD "scenes" (.arr []) with
    | .arr xs => .ok xs
    | .str s => .ok (s.data.map (fun c => .str (String.mk [c])))
    | .obj kvs => .ok (kvs.map (fun kv => .str kv.1))
    | _ => .error .typeError
  | _ => .error .attributeError

/-- The five fixed fallback scene descriptions of
`_generate_story_with_images` (lines 400–406) — always five, whatever
the requested scene count. -/
def sceneDescriptions (p : String) : List String :=
  [ "Scene 1: The beginning of " ++ p
  , "Scene 2: The adventure continues with " ++ p
  , "Scene 3: A challenge appears in " ++ p
  , "Scene 4: Overcoming obstacles in " ++ p
  , "Scene 5: The happy ending of " ++ p ]

/-- The scene dicts built by `_generate_story_with_images`
(lines 408–419): ordinal, templated text, and an image synthesised from
the scene description with the request genre as style. -/
def fallbackScenes (env : Env) (req : GenerateStoryRequest) : List Json :=
  (sceneDescriptions req.prompt).enum.map (fun iv =>
    .obj [ ("scene_number", .num (Int.ofNat (iv.1 + 1)))
         , ("story_text", .str iv.2)
         , ("image", jsonOfOpt (generate_image env iv.2 req.genre)) ])

/-- The story dict returned by `_generate_story_with_images`
(lines 421–430); its internal `except` clause is unreachable because
every step of the body is non-raising. -/
def fallbackStoryData (env : Env) (req : GenerateStoryRequest) : Json :=
  .obj [ ("title", .str ("Adventure of " ++ req.prompt))
       , ("theme", .str req.genre)
       , ("target_age", .str (req.age_group ++ " years"))
       , ("scenes", .arr (fallbackScenes env req)) ]

/-- In-place mutation of the scene dicts is visible through
`story_data['scenes']` only when that key exists (line 224's default `[]`
is a fresh list otherwise). -/
def setScenesIfPresent (storyData : Json) (xs : List Json) : Json :=
  if storyData.hasKey "scenes" then storyData.set "scenes" (.arr xs) else storyData

/-- Result of `GenerateStoryTool.execute`: an `OutputSchema` whose
`result` field is `json.dumps` of the story dict, or the bare Python
`None` returned when control falls off the end of the function (the
successful-repair path, which re-decodes at line 278 but never returns
or resumes the image loop). -/
inductive ExecOut where
  | output (storyData : Json)
  | pyNone

/-- Embedding of `GenerateStoryTool.execute` (lines 184–294).  The prompt formatting of
lines 199–205 is pure string work over the loaded prompt templates and is
elided; `env.llm` is the `llm_client.invoke` outcome.  A raised `.error`
models the `HTTPException` of lines 292–294, reachable only from the
elided configuration steps, never from the modelled body: the handler at
line 287 catches every exception of the LLM call, the decode, and the
image loop, diverting to `_generate_story_with_images`. -/
def execute (env : Env) (req : GenerateStoryRequest) : Except PyErr ExecOut :=
  match env.llm with
  | .error _ => .ok (.output (fallbackStoryData env req))
  | .ok result =>
    if result.data.all isPySpace then .ok (.output (fallbackStoryData env req))
    else
      match jsonLoads result.data with
      | some storyData =>
        match iterScenes storyData with
        | .error _ => .ok (.output (fallbackStoryData env req))
        | .ok scenes =>
          match populate_scenes env req storyData scenes with
          | .error _ => .ok (.output (fallbackStoryData env req))
          | .ok scenes' => .ok (.output (setScenesIfPresent storyData scenes'))
      | none =>
        match extractRepair result with
        | some _ => .ok .pyNone
        | none => .ok (.output (fallbackStoryData env req))

/-- The scene list of a story dict (shape-level accessor for stating
claims). -/
def scenesOf (storyData : Json) : List Json :=
  match storyData.getD "scenes" (.arr []) with
  | .arr xs => xs
  | _ => []

/-- The number of scenes in the story dict of an `execute` result, when
one was returned. -/
def execScenesLen : Except PyErr ExecOut → Option Nat
  | .ok (.output sd) => some (scenesOf sd).length
  | _ => none

/-- A field that pydantic's `str` coercion accepts wherever the source
reads it with a string default: absent, or present as a JSON string. -/
def strOrAbsentB (kvs : List (String × Json)) (k : String) : Bool :=
  match lookupKey kvs k with
  | none => true
  | some (.str _) => true
  | some _ => false

/-- A scene element of the extracted `scenes` array that
`_parse_llm_response` consumes without raising: an object whose
`description` and `imagePrompt` fields, when present, are strings. -/
def goodScene : Json → Bool
  | .obj kvs => strOrAbsentB kvs "description" && strOrAbsentB kvs "imagePrompt"
  | _ => false

/-- A request with scene count 3 (the scenario of several claims). -/
def reqThree : GenerateStoryRequest :=
  { username := "u", prompt := "a dragon", genre := "fantasy"
  , age_group := "children", scene_count := 3 }

/-- A request with scene count 5. -/
def reqFive : GenerateStoryRequest :=
  { username := "u", prompt := "a dragon", genre := "fantasy"
  , age_group := "children", scene_count := 5 }

/-- World with no image-provider credentials and a failing text backend
(the invoke call raises, e.g. a timeout). -/
def envNoProviders : Env :=
  { openaiKey := false, stabilityKey := false
  , dalleHttp := fun _ _ => .exn, stabilityHttp := fun _ _ => .exn
  , llm := .error (), chain := .error () }

/-- World where the DALL-E credential is configured but its call comes
back with HTTP 500, while Stability is configured and would succeed. -/
def envDalleFail : Env :=
  { openaiKey := true, stabilityKey := true
  , dalleHttp := fun _ _ => .httpStatus 500
  , stabilityHttp := fun _ _ => .ok "STAB"
  , llm := .error (), chain := .error () }

/-- The known-malformed missing-separator fixture of the spec, with
scene-identifying key `id`:
`{"scenes":[{"id":1,"description":"a"}{"id":2,"description":"b"}]}`. -/
def fixtureMissingSep : String :=
  "\x7b\"scenes\":[\x7b\"id\":1,\"description\":\"a\"\x7d\x7b\"id\":2,\"description\":\"b\"\x7d]\x7d"

/-- The analogous missing-separator fixture keyed by `scene_number` —
the only key the source repair recognises. -/
def fixtureSceneNum : String :=
  "\x7b\"scenes\":[\x7b\"scene_number\":1,\"description\":\"a\"\x7d\x7b\"scene_number\":2,\"description\":\"b\"\x7d]\x7d"

/-- An LLM reply that decodes strictly: one scene with non-empty
`story_text` and a `theme` tag on the story. -/
def llmReplyWithText : String :=
  "\x7b\"theme\": \"space\", \"scenes\": [\x7b\"scene_number\": 1, \"story_text\": \"a cat\"\x7d]\x7d"

/-- The decoded story dict of `llmReplyWithText`. -/
def storyWithText : Json :=
  .obj [ ("theme", .str "space")
       , ("scenes", .arr [.obj [("scene_number", .num 1), ("story_text", .str "a cat")]]) ]

/-- Its single scene. -/
def sceneWithText : Json :=
  .obj [("scene_number", .num 1), ("story_text", .str "a cat")]

/-- World with no credentials whose text backend returns
`llmReplyWithText`. -/
def envLlmText : Env := { envNoProviders with llm := .ok llmReplyWithText }

/-- Three well-formed extracted scenes (for the reconciliation
scenario). -/
def threeScenes : List Json :=
  [ .obj [("description", .str "d1")]
  , .obj [("description", .str "d2")]
  , .obj [("description", .str "d3")] ]

/-- A decoded backend story carrying `threeScenes`. -/
def storyThreeScenes : Json := .obj [("title", .str "T"), ("scenes", .arr threeScenes)]

/-- Shape of the `_generate_story_with_images` narrative: exactly five
scenes, ordinals 1..5, truthy templated text, an image field on every
scene — whatever the requested scene count. -/
def fallbackScenesWellFormed (env : Env) (req : GenerateStoryRequest) : Prop :=
  (scenesOf (fallbackStoryData env req)).length = 5 ∧
  ∀ i (hi : i < (scenesOf (fallbackStoryData env req)).length),
    ((scenesOf (fallbackStoryData env req)).get ⟨i, hi⟩).getD "scene_number" .null
      = .num (Int.ofNat (i + 1)) ∧
    (((scenesOf (fallbackStoryData env req)).get ⟨i, hi⟩).getD "story_text" .null).truthy
      = true ∧
    ((scenesOf (fallbackStoryData env req)).get ⟨i, hi⟩).hasKey "image" = true

/-- Every fallback scene carries a truthy (non-empty string) image
payload. -/
def fallbackImagesNonEmpty (env : Env) (req : GenerateStoryRequest) : Prop :=
  ∀ i (hi : i < (scenesOf (fallbackStoryData env req)).length),
    (((scenesOf (fallbackStoryData env req)).get ⟨i, hi⟩).getD "image" .null).truthy = true

/-- Fixture for the image-preservation witness: two extracted scenes, the
first already carrying a non-empty image, the second carrying none. -/
def scenesKeep : List Json :=
  [ .obj [("story_text", .str ""), ("image", .str "KEEP")]
  , .obj [] ]

/-- Story dict holding `scenesKeep`. -/
def storyKeep : Json := .obj [("scenes", .arr scenesKeep)]

/-- The image loop's output on `scenesKeep` in `envNoProviders`: the first
scene untouched, the second with the deterministic mock image attached. -/
def outKeep : List Json :=
  [ .obj [("story_text", .str ""), ("image", .str "KEEP")]
  , .obj [("image", .str (mockPayload "a dragon" "digital art"))] ]

/-- A string append with a non-empty left operand has non-empty data. -/
theorem data_ne_nil_append (a b : String) (h : a.data ≠ []) : (a ++ b).data ≠ [] := by
  rw [String.data_append]
  intro he
  exact h (List.append_eq_nil.mp he).1

/-- A string append with a non-empty right operand has non-empty data. -/
theorem data_ne_nil_append_right (a b : String) (h : b.data ≠ []) : (a ++ b).data ≠ [] := by
  rw [String.data_append]
  intro he
  exact h (List.append_eq_nil.mp he).2

/-- A string with non-empty data is not `isEmpty`. -/
theorem isEmpty_false_of_data_ne (s : String) (h : s.data ≠ []) : s.isEmpty = false := by
  rw [Bool.eq_false_iff]
  intro he
  exact h (by rw [(String.isEmpty_iff _).mp he])

/-- Every templated scene description is non-empty. -/
theorem template_scene_description_ne (req : GenerateStoryRequest) (n : Nat) :
    (template_scene req n).description.isEmpty = false := by
  apply isEmpty_false_of_data_ne
  apply data_ne_nil_append
  apply data_ne_nil_append
  apply data_ne_nil_append
  decide

/-- Every templated scene image prompt is non-empty. -/
theorem template_scene_imagePrompt_ne (req : GenerateStoryRequest) (n : Nat) :
    (template_scene req n).imagePrompt.isEmpty = false := by
  apply isEmpty_false_of_data_ne
  apply data_ne_nil_append_right
  decide

/-- The mock story always passes `_validate_story`. -/
theorem validate_mock (req : GenerateStoryRequest) :
    validate_story (generate_mock_story req) req = true := by
  unfold validate_story generate_mock_story
  simp [List.all_eq_true, template_scene_description_ne, template_scene_imagePrompt_ne]

/-- Whatever the chain outcome, `_generate_story_with_llm` returns a story
that passes `_validate_story` (it validates the LLM story itself and every
failure path yields the mock story). -/
theorem validate_gswl (env : Env) (req : GenerateStoryRequest) :
    validate_story (generate_story_with_llm env req) req = true := by
  unfold generate_story_with_llm
  split
  · exact validate_mock req
  · split
    · exact validate_mock req
    · split
      · exact validate_mock req
      · split
        · assumption
        · exact validate_mock req

/-- A three-positional-argument `dict.get` call raises. -/
theorem pyDictGet_three (d a b c : Json) : pyDictGet d [a, b, c] = .error .typeError ∨
    pyDictGet d [a, b, c] = .error .attributeError := by
  cases d
  case obj kvs => exact Or.inl rfl
  all_goals exact Or.inr rfl

/-- Re-assigning a key its current value leaves the field list unchanged. -/
theorem insertKey_self (kvs : List (String × Json)) (k : String) (v : Json)
    (h : lookupKey kvs k = some v) : insertKey kvs k v = kvs := by
  induction kvs with
  | nil => simp [lookupKey] at h
  | cons kv rest ih =>
    obtain ⟨k', v'⟩ := kv
    by_cases hk : k' = k
    · subst hk
      simp [lookupKey] at h
      simp [insertKey, h]
    · simp [lookupKey, hk] at h
      simp [insertKey, hk, ih h]

/-- Re-assigning a present key its looked-up value is the identity. -/
theorem set_getD_self (kvs : List (String × Json)) (k : String)
    (h : (Json.obj kvs).hasKey k = true) :
    (Json.obj kvs).set k ((Json.obj kvs).getD k .null) = .obj kvs := by
  simp [Json.hasKey, Option.isSome_iff_exists] at h
  obtain ⟨v, hv⟩ := h
  simp [Json.set, Json.getD, hv, insertKey_self kvs k v hv]

/-- A truthy defaulted lookup implies the key is present. -/
theorem truthy_getD_hasKey (j : Json) (k : String)
    (h : (j.getD k .null).truthy = true) : j.hasKey k = true := by
  cases j with
  | obj kvs =>
    cases hv : lookupKey kvs k with
    | none =>
      exfalso
      simp only [Json.getD] at h
      rw [hv] at h
      simp [Option.getD, Json.truthy] at h
    | some v => simp [Json.hasKey, hv]
  | null => simp [Json.getD, Json.truthy] at h
  | bool b => simp [Json.getD, Json.truthy] at h
  | num n => simp [Json.getD, Json.truthy] at h
  | str s => simp [Json.getD, Json.truthy] at h
  | arr xs => simp [Json.getD, Json.truthy] at h

/-- What a successful pass of the per-scene image loop implies: the scene's
text was falsy (a truthy text reaches the malformed lookup and raises), a
truthy existing image leaves the scene untouched, a falsy one attaches the
request-prompt synthesis. -/
theorem populate_scene_ok (env : Env) (req : GenerateStoryRequest)
    (storyData scene out : Json)
    (h : populate_scene env req storyData scene = .ok out) :
    ((scene.getD "story_text" (.str "")).truthy = false) ∧
    ((scene.getD "image" .null).truthy = true → out = scene) ∧
    ((scene.getD "image" .null).truthy = false →
      out = scene.set "image" (jsonOfOpt (generate_image env req.prompt "digital art"))) := by
  cases scene with
  | obj kvs =>
    unfold populate_scene at h
    by_cases ht : ((Json.obj kvs).getD "story_text" (.str "")).truthy = true
    · exfalso
      rcases pyDictGet_three storyData (.str "animated") (.str "theme") (.str "digital art")
        with hp | hp <;> simp [ht, hp] at h
    · rw [Bool.not_eq_true] at ht
      refine ⟨ht, ?_, ?_⟩
      · intro hi
        simp [ht, hi] at h
        rw [← h]
        exact set_getD_self kvs "image" (truthy_getD_hasKey _ "image" hi)
      · intro hi
        simp [ht, hi] at h
        exact h.symm
  | null => simp [populate_scene] at h
  | bool b => simp [populate_scene] at h
  | num n => simp [populate_scene] at h
  | str s => simp [populate_scene] at h
  | arr xs => simp [populate_scene] at h

/-- The image loop preserves the scene count. -/
theorem populate_scenes_length (env : Env) (req : GenerateStoryRequest)
    (storyData : Json) : ∀ scenes out,
    populate_scenes env req storyData scenes = .ok out → out.length = scenes.length := by
  intro scenes
  induction scenes with
  | nil => intro out h; simp [populate_scenes] at h; simp [← h]
  | cons s rest ih =>
    intro out h
    unfold populate_scenes at h
    cases h1 : populate_scene env req storyData s with
    | error e => rw [h1] at h; cases h
    | ok s2 =>
      rw [h1] at h
      cases h2 : populate_scenes env req storyData rest with
      | error e => rw [h2] at h; cases h
      | ok rest2 =>
        rw [h2] at h
        cases h
        simp [ih rest2 h2]

/-- Pointwise behaviour of a completed image loop: truthy images are kept
verbatim, missing or falsy ones get the synthesized image attached. -/
theorem populate_scenes_spec (env : Env) (req : GenerateStoryRequest)
    (storyData : Json) : ∀ scenes out,
    populate_scenes env req storyData scenes = .ok out →
    ∀ i (hi : i < scenes.length) (ho : i < out.length),
      (((scenes.get ⟨i, hi⟩).getD "image" .null).truthy = true →
        out.get ⟨i, ho⟩ = scenes.get ⟨i, hi⟩) ∧
      (((scenes.get ⟨i, hi⟩).getD "image" .null).truthy = false →
        out.get ⟨i, ho⟩ = (scenes.get ⟨i, hi⟩).set "image"
          (jsonOfOpt (generate_image env req.prompt "digital art"))) := by
  intro scenes
  induction scenes with
  | nil => intro out h i hi; exact absurd hi (Nat.not_lt_zero i)
  | cons s rest ih =>
    intro out h i hi ho
    unfold populate_scenes at h
    cases h1 : populate_scene env req storyData s with
    | error e => rw [h1] at h; cases h
    | ok s2 =>
      rw [h1] at h
      cases h2 : populate_scenes env req storyData rest with
      | error e => rw [h2] at h; cases h
      | ok rest2 =>
        rw [h2] at h
        cases h
        obtain ⟨-, hkeep, hsyn⟩ := populate_scene_ok env req storyData s s2 h1
        cases i with
        | zero => exact ⟨fun htr => hkeep htr, fun hf => hsyn hf⟩
        | succ n =>
          exact ih rest2 h2 n (Nat.lt_of_succ_lt_succ hi) (Nat.lt_of_succ_lt_succ ho)

/-- Every branch of `execute` returns; the `HTTPException` re-raise of
lines 292–294 is unreachable from the modelled body. -/
theorem execute_no_raise (env : Env) (req : GenerateStoryRequest) :
    ∃ out, execute env req = .ok out := by
  unfold execute
  repeat' split
  all_goals exact ⟨_, rfl⟩

/-- The i-th description of the fallback library is non-empty. -/
theorem sceneDescriptions_isEmpty_false (p : String) (i : Nat) (hi : i < 5) :
    ((sceneDescriptions p)[i]?.getD "").isEmpty = false := by
  interval_cases i <;>
    (apply isEmpty_false_of_data_ne; apply data_ne_nil_append; decide)

/-- The deterministic mock payload is never the empty string (it starts
with the data-URL prefix). -/
theorem mockPayload_isEmpty_false (p s : String) : (mockPayload p s).isEmpty = false := by
  apply isEmpty_false_of_data_ne
  apply data_ne_nil_append
  decide

/-- Closed form of the i-th fallback scene dict. -/
theorem fallback_scene_at (env : Env) (req : GenerateStoryRequest) (i : Nat)
    (hi : i < (fallbackScenes env req).length) :
    (fallbackScenes env req).get ⟨i, hi⟩ =
      .obj [ ("scene_number", .num (Int.ofNat (i + 1)))
           , ("story_text", .str ((sceneDescriptions req.prompt).getD i ""))
           , ("image", jsonOfOpt (generate_image env
               ((sceneDescriptions req.prompt).getD i "") req.genre)) ] := by
  have h5 : i < 5 := hi
  interval_cases i <;> rfl

/-- The story dict of the fallback carries exactly its five scene dicts. -/
theorem scenesOf_fallback (env : Env) (req : GenerateStoryRequest) :
    scenesOf (fallbackStoryData env req) = fallbackScenes env req := rfl

/-- The fallback narrative always has the five-scene well-formed shape. -/
theorem fallbackScenesWellFormed_holds (env : Env) (req : GenerateStoryRequest) :
    fallbackScenesWellFormed env req := by
  refine ⟨rfl, ?_⟩
  intro i hi
  have hi2 : i < (fallbackScenes env req).length := hi
  have hat := fallback_scene_at env req i hi2
  rw [show ((scenesOf (fallbackStoryData env req)).get ⟨i, hi⟩ : Json)
      = (fallbackScenes env req).get ⟨i, hi2⟩ from rfl, hat]
  refine ⟨rfl, ?_, rfl⟩
  have h5 : i < 5 := hi2
  simp [Json.getD, lookupKey, Json.truthy, sceneDescriptions_isEmpty_false req.prompt i h5]

/-- With no provider credentials configured, every fallback scene image is
the non-empty deterministic mock payload. -/
theorem fallbackImagesNonEmpty_holds (env : Env) (req : GenerateStoryRequest)
    (hk : env.openaiKey = false) (hs : env.stabilityKey = false) :
    fallbackImagesNonEmpty env req := by
  intro i hi
  have hi2 : i < (fallbackScenes env req).length := hi
  have hat := fallback_scene_at env req i hi2
  rw [show ((scenesOf (fallbackStoryData env req)).get ⟨i, hi⟩ : Json)
      = (fallbackScenes env req).get ⟨i, hi2⟩ from rfl, hat]
  simp [Json.getD, lookupKey, generate_image, hk, hs, jsonOfOpt, Json.truthy,
    mockPayload_isEmpty_false]

/-- The padding loop grows the list to exactly the requested count when
given enough fuel. -/
theorem padScenesAux_length (req : GenerateStoryRequest) :
    ∀ fuel scenes, req.scene_count ≤ scenes.length + fuel →
    (padScenesAux req fuel scenes).length = max scenes.length req.scene_count := by
  intro fuel
  induction fuel with
  | zero =>
    intro scenes h
    unfold padScenesAux
    omega
  | succ fuel ih =>
    intro scenes h
    unfold padScenesAux
    by_cases hlt : scenes.length < req.scene_count
    · simp only [hlt, if_true]
      rw [ih (scenes ++ [template_scene req (scenes.length + 1)]) (by simp; omega)]
      simp
      omega
    · simp only [hlt, if_false]
      omega

/-- The padding loop never rewrites existing positions. -/
theorem padScenesAux_get_lt (req : GenerateStoryRequest) :
    ∀ fuel scenes i, i < scenes.length →
    (padScenesAux req fuel scenes)[i]? = scenes[i]? := by
  intro fuel
  induction fuel with
  | zero => intro scenes i h; rfl
  | succ fuel ih =>
    intro scenes i h
    unfold padScenesAux
    by_cases hlt : scenes.length < req.scene_count
    · simp only [hlt, if_true]
      rw [ih (scenes ++ [template_scene req (scenes.length + 1)]) i (by simp; omega)]
      exact List.getElem?_append_left h
    · simp only [hlt, if_false]

/-- Positions beyond the extracted scenes are filled with the templated
scene of their 1-based ordinal. -/
theorem padScenesAux_get_ge (req : GenerateStoryRequest) :
    ∀ fuel scenes i, scenes.length ≤ i → i < req.scene_count →
    req.scene_count ≤ scenes.length + fuel →
    (padScenesAux req fuel scenes)[i]? = some (template_scene req (i + 1)) := by
  intro fuel
  induction fuel with
  | zero => intro scenes i h1 h2 h3; omega
  | succ fuel ih =>
    intro scenes i h1 h2 h3
    unfold padScenesAux
    have hlt : scenes.length < req.scene_count := by omega
    simp only [hlt, if_true]
    by_cases he : i = scenes.length
    · subst he
      rw [padScenesAux_get_lt req fuel _ scenes.length (by simp)]
      exact List.getElem?_concat_length scenes (template_scene req (scenes.length + 1))
    · exact ih (scenes ++ [template_scene req (scenes.length + 1)]) i
        (by simp; omega) h2 (by simp; omega)

/-- A well-formed field (absent or string) is accepted by the pydantic
string coercion together with its string default. -/
theorem jsonToStr_getD_ok (kvs : List (String × Json)) (k dflt : String)
    (h : strOrAbsentB kvs k = true) :
    ∃ s, jsonToStr ((Json.obj kvs).getD k (.str dflt)) = .ok s := by
  unfold strOrAbsentB at h
  simp only [Json.getD]
  cases hv : lookupKey kvs k with
  | none => exact ⟨dflt, by simp [Option.getD, jsonToStr]⟩
  | some v =>
    rw [hv] at h
    cases v <;> simp [jsonToStr] at h ⊢

/-- The enumeration loop of `_parse_llm_response` succeeds on well-formed
scenes and numbers them consecutively from its running index. -/
theorem buildScenes_ok (req : GenerateStoryRequest) :
    ∀ sds i, sds.all goodScene = true →
    ∃ l, buildScenes req i sds = .ok l ∧ l.length = sds.length ∧
      ∀ j (hj : j < l.length), (l.get ⟨j, hj⟩).id = i + j + 1 := by
  intro sds
  induction sds with
  | nil =>
    intro i h
    refine ⟨[], rfl, rfl, ?_⟩
    intro j hj
    cases hj
  | cons sd rest ih =>
    intro i h
    simp only [List.all_cons, Bool.and_eq_true] at h
    obtain ⟨hsd, hrest⟩ := h
    cases sd with
    | obj kvs =>
      unfold goodScene at hsd
      simp only [Bool.and_eq_true] at hsd
      obtain ⟨hd, hip⟩ := hsd
      obtain ⟨d, hdok⟩ := jsonToStr_getD_ok kvs "description" ("Scene " ++ toString (i + 1)) hd
      obtain ⟨ip, hipok⟩ := jsonToStr_getD_ok kvs "imagePrompt"
        (req.prompt ++ " - scene " ++ toString (i + 1)) hip
      obtain ⟨l, hl, hlen, hids⟩ := ih (i + 1) hrest
      refine ⟨{ id := i + 1, description := d, imagePrompt := ip } :: l, ?_, ?_, ?_⟩
      · unfold buildScenes
        rw [hdok, hipok, hl]
      · simp [hlen]
      · intro j hj
        cases j with
        | zero => rfl
        | succ n =>
          have := hids n (Nat.lt_of_succ_lt_succ hj)
          simp only [List.get_cons_succ]
          rw [this]
          omega
    | null => simp [goodScene] at hsd
    | bool b => simp [goodScene] at hsd
    | num n => simp [goodScene] at hsd
    | str s2 => simp [goodScene] at hsd
    | arr xs => simp [goodScene] at hsd

/-- C1 (counterexample): the claim that `execute` returns exactly the
requested number of scenes fails — with the text backend failing and
scene count 3 requested, `execute` returns a narrative with 5 scenes. -/
theorem C1_counterexample :
    execScenesLen (execute envNoProviders reqThree) = some 5 ∧
    reqThree.scene_count = 3 :=
  ⟨rfl, rfl⟩

/-- C1 (amended): when text generation fails, `execute` returns the
`_generate_story_with_images` narrative, which has exactly 5 scenes with
ordinals 1..5 and non-empty templated text — regardless of the requested
scene count — each carrying an image field whose payload is non-empty
whenever no image-provider credential is configured. -/
theorem C1_amended (env : Env) (req : GenerateStoryRequest)
    (hllm : env.llm = .error ()) :
    execute env req = .ok (.output (fallbackStoryData env req)) ∧
    fallbackScenesWellFormed env req ∧
    (env.openaiKey = false → env.stabilityKey = false →
      fallbackImagesNonEmpty env req) := by
  refine ⟨?_, fallbackScenesWellFormed_holds env req,
    fun hk hs => fallbackImagesNonEmpty_holds env req hk hs⟩
  unfold execute
  rw [hllm]

/-- C1 (witness): the amended statement instantiated in the world with no
providers and a failing text backend, at scene count 3. -/
theorem C1_witness :
    execute envNoProviders reqThree
      = .ok (.output (fallbackStoryData envNoProviders reqThree)) ∧
    fallbackScenesWellFormed envNoProviders reqThree ∧
    (envNoProviders.openaiKey = false → envNoProviders.stabilityKey = false →
      fallbackImagesNonEmpty envNoProviders reqThree) :=
  C1_amended envNoProviders reqThree rfl

/-- C2 (counterexample): `generate_image` is not total in the claimed
sense — with the DALL-E credential configured and the provider answering
HTTP 500, it returns no payload at all (`None`), refuting the claim that
it returns a non-empty payload under every provider outcome. -/
theorem C2_counterexample :
    generate_image envDalleFail "a cat" "digital art" = none ∧
    envDalleFail.openaiKey = true :=
  ⟨rfl, rfl⟩

/-- C2 (amended): `generate_image` never raises; with no provider
credentials configured it returns the non-empty deterministic mock
payload, but when a network provider is selected and its call does not
come back as a success-with-data, the result is `None` — absent, not
demoted to another tier. -/
theorem C2_amended (env : Env) (p s : String) :
    (env.openaiKey = false → env.stabilityKey = false →
      generate_image env p s = some (mockPayload p s) ∧
      (mockPayload p s).isEmpty = false) ∧
    (env.openaiKey = true → (∀ b, env.dalleHttp p s ≠ .ok b) →
      generate_image env p s = none) ∧
    (env.openaiKey = false → env.stabilityKey = true →
      (∀ b, env.stabilityHttp p s ≠ .ok b) →
      generate_image env p s = none) := by
  refine ⟨fun hk hs => ⟨?_, mockPayload_isEmpty_false p s⟩,
    fun hk hb => ?_, fun hk hs hb => ?_⟩
  · simp [generate_image, hk, hs]
  · have hgi : generate_image env p s = dalleResult env p s := by
      unfold generate_image
      rw [hk]
      rfl
    rw [hgi]
    unfold dalleResult
    cases hd : env.dalleHttp p s with
    | ok b => exact absurd hd (hb b)
    | okNoData => rfl
    | httpStatus c => rfl
    | exn => rfl
  · have hgi : generate_image env p s = stabilityResult env p s := by
      unfold generate_image
      rw [hk, hs]
      rfl
    rw [hgi]
    unfold stabilityResult
    cases hd : env.stabilityHttp p s with
    | ok b => exact absurd hd (hb b)
    | okNoData => rfl
    | httpStatus c => rfl
    | exn => rfl

/-- C2 (witness): with no credentials, synthesis of a concrete description
yields the non-empty mock payload. -/
theorem C2_witness :
    generate_image envNoProviders "a cat" "digital art"
      = some (mockPayload "a cat" "digital art") ∧
    (mockPayload "a cat" "digital art").isEmpty = false :=
  (C2_amended envNoProviders "a cat" "digital art").1 rfl rfl

/-- C3 (counterexample): `_generate_story_with_images` does not honour the
requested scene count — a request for 3 scenes yields a 5-scene story. -/
theorem C3_counterexample :
    (scenesOf (fallbackStoryData envNoProviders reqThree)).length = 5 ∧
    reqThree.scene_count = 3 :=
  ⟨rfl, rfl⟩

/-- C3 (amended): the fallback builder produces exactly its five fixed
templated scenes, ordinals 1..5, each with an image field attached, for
every request — the requested count is ignored; with no provider
credentials every attached image is the non-empty mock payload. -/
theorem C3_amended (env : Env) (req : GenerateStoryRequest) :
    fallbackScenesWellFormed env req ∧
    (env.openaiKey = false → env.stabilityKey = false →
      fallbackImagesNonEmpty env req) :=
  ⟨fallbackScenesWellFormed_holds env req,
   fun hk hs => fallbackImagesNonEmpty_holds env req hk hs⟩

/-- C3 (witness): the amended statement in the credential-free world at
scene count 3. -/
theorem C3_witness :
    fallbackScenesWellFormed envNoProviders reqThree ∧
    fallbackImagesNonEmpty envNoProviders reqThree :=
  ⟨(C3_amended envNoProviders reqThree).1,
   (C3_amended envNoProviders reqThree).2 rfl rfl⟩

/-- C4: for every upstream world and request, `execute` never raises (the
line-287 handler catches every exception of the LLM call, decode, and
image loop), and the `create` route returns a success response with no
error field — no pipeline error is surfaced to the caller. -/
theorem C4_thm (env : Env) (req : GenerateStoryRequest) :
    (∃ out, execute env req = .ok out) ∧
    (create_story env req).success = true ∧
    (create_story env req).error = none := by
  refine ⟨execute_no_raise env req, ?_, ?_⟩ <;>
    simp [create_story, validate_gswl]

/-- C5 (counterexample): with both credentials configured, a DALL-E status
failure does not demote to Stability (which would succeed) nor to the
local renderer — `generate_image` returns nothing. -/
theorem C5_counterexample :
    envDalleFail.stabilityKey = true ∧
    stabilityResult envDalleFail "d" "s" = some "data:image/png;base64,STAB" ∧
    generate_image envDalleFail "d" "s" = none :=
  ⟨rfl, rfl, rfl⟩

/-- C5 (amended): the cascade is keyed on credentials only — DALL-E is
used whenever its credential is configured (its failures yield `None`
without trying Stability or the renderer), Stability only when DALL-E's
credential is absent, and the deterministic renderer only when neither
credential is configured. -/
theorem C5_amended (env : Env) (p s : String) :
    (env.openaiKey = true → generate_image env p s = dalleResult env p s) ∧
    (env.openaiKey = false → env.stabilityKey = true →
      generate_image env p s = stabilityResult env p s) ∧
    (env.openaiKey = false → env.stabilityKey = false →
      generate_image env p s = some (mockPayload p s)) ∧
    (env.openaiKey = true → ∀ c, env.dalleHttp p s = .httpStatus c →
      generate_image env p s = none) := by
  refine ⟨fun hk => ?_, fun hk hs => ?_, fun hk hs => ?_, fun hk c hd => ?_⟩
  · unfold generate_image
    rw [hk]
    rfl
  · unfold generate_image
    rw [hk, hs]
    rfl
  · simp [generate_image, hk, hs]
  · have h1 : generate_image env p s = dalleResult env p s := by
      unfold generate_image
      rw [hk]
      rfl
    rw [h1]
    unfold dalleResult
    rw [hd]

/-- C5 (witness): the status-failure clause instantiated in the
two-credential world with DALL-E answering HTTP 500. -/
theorem C5_witness :
    generate_image envDalleFail "d" "s" = none :=
  (C5_amended envDalleFail "d" "s").2.2.2 rfl 500 rfl

/-- C6: after successful extraction, `_parse_llm_response` reconciles the
scenes against the requested count — it always returns a story with
exactly `scene_count` scenes, ordinals `1..N`; positions beyond the
extracted list are filled from the template library keyed by ordinal, and
truncation keeps the extracted prefix in order. -/
theorem C6_thm (req : GenerateStoryRequest) (t : String)
    (sds : List Json) (hgood : sds.all goodScene = true) :
    ∃ story, parse_llm_response (.obj [("title", .str t), ("scenes", .arr sds)]) req
        = .ok story ∧
      story.scenes.length = req.scene_count ∧
      (∀ i (hi : i < story.scenes.length), (story.scenes.get ⟨i, hi⟩).id = i + 1) ∧
      (∀ i, sds.length ≤ i → i < req.scene_count →
        story.scenes[i]? = some (template_scene req (i + 1))) ∧
      (∃ l, buildScenes req 0 sds = .ok l ∧
        ∀ i, i < sds.length → i < req.scene_count → story.scenes[i]? = l[i]?) := by
  obtain ⟨l, hl, hlen, hids⟩ := buildScenes_ok req sds 0 hgood
  have hstep : parse_llm_response (.obj [("title", .str t), ("scenes", .arr sds)]) req
      = (match buildScenes req 0 sds with
         | .error e => .error e
         | .ok scenes =>
           .ok { title := t, scenes := (padScenes req scenes).take req.scene_count }) := rfl
  have hparse : parse_llm_response (.obj [("title", .str t), ("scenes", .arr sds)]) req
      = .ok { title := t, scenes := (padScenes req l).take req.scene_count } := by
    rw [hstep, hl]
  have hfuel : req.scene_count ≤ l.length + req.scene_count := by omega
  have hpadlen : (padScenes req l).length = max l.length req.scene_count :=
    padScenesAux_length req req.scene_count l hfuel
  have hslen : ((padScenes req l).take req.scene_count).length = req.scene_count := by
    rw [List.length_take, hpadlen]
    omega
  refine ⟨_, hparse, hslen, ?_, ?_, ⟨l, hl, ?_⟩⟩
  · intro i hi
    have hiN : i < req.scene_count := by rw [hslen] at hi; exact hi
    have hq : ((padScenes req l).take req.scene_count)[i]? = (padScenes req l)[i]? :=
      List.getElem?_take_of_lt hiN
    by_cases hil : i < l.length
    · have h1 : (padScenes req l)[i]? = l[i]? :=
        padScenesAux_get_lt req req.scene_count l i hil
      have h2 : l[i]? = some (l.get ⟨i, hil⟩) := List.getElem?_eq_getElem hil
      have h3 : ((padScenes req l).take req.scene_count)[i]? =
          some (((padScenes req l).take req.scene_count).get ⟨i, hi⟩) :=
        List.getElem?_eq_getElem hi
      have h4 := hids i hil
      have h5 : some (((padScenes req l).take req.scene_count).get ⟨i, hi⟩)
          = some (l.get ⟨i, hil⟩) := by rw [← h3, hq, h1, h2]
      rw [Option.some_inj] at h5
      rw [h5, h4]
      omega
    · push_neg at hil
      have h1 : (padScenes req l)[i]? = some (template_scene req (i + 1)) :=
        padScenesAux_get_ge req req.scene_count l i hil hiN hfuel
      have h3 : ((padScenes req l).take req.scene_count)[i]? =
          some (((padScenes req l).take req.scene_count).get ⟨i, hi⟩) :=
        List.getElem?_eq_getElem hi
      have h5 : some (((padScenes req l).take req.scene_count).get ⟨i, hi⟩)
          = some (template_scene req (i + 1)) := by rw [← h3, hq, h1]
      rw [Option.some_inj] at h5
      rw [h5]
      rfl
  · intro i hge hiN
    have hq : ((padScenes req l).take req.scene_count)[i]? = (padScenes req l)[i]? :=
      List.getElem?_take_of_lt hiN
    rw [hq]
    exact padScenesAux_get_ge req req.scene_count l i (by omega) hiN hfuel
  · intro i hil hiN
    have hq : ((padScenes req l).take req.scene_count)[i]? = (padScenes req l)[i]? :=
      List.getElem?_take_of_lt hiN
    rw [hq]
    exact padScenesAux_get_lt req req.scene_count l i (by omega)

/-- C6 (witness): a request for 5 scenes whose backend returns 3 valid
scenes yields 5 scenes with ordinals 1..5, positions 4 and 5 drawn from
the template library and the first 3 preserved in order. -/
theorem C6_witness :
    ∃ story, parse_llm_response
        (.obj [("title", .str "T"), ("scenes", .arr threeScenes)]) reqFive
        = .ok story ∧
      story.scenes.length = reqFive.scene_count ∧
      (∀ i (hi : i < story.scenes.length), (story.scenes.get ⟨i, hi⟩).id = i + 1) ∧
      (∀ i, threeScenes.length ≤ i → i < reqFive.scene_count →
        story.scenes[i]? = some (template_scene reqFive (i + 1))) ∧
      (∃ l, buildScenes reqFive 0 threeScenes = .ok l ∧
        ∀ i, i < threeScenes.length → i < reqFive.scene_count →
          story.scenes[i]? = l[i]?) :=
  C6_thm reqFive "T" threeScenes rfl

/-- C7 (counterexample): the spec's missing-separator fixture, keyed by
`id`, does NOT round-trip — the repair of line 271 only recognises the
key `scene_number`, so the retry decode still fails and extraction
returns nothing. -/
theorem C7_counterexample : extractRepair fixtureMissingSep = none := rfl

/-- C7 (amended): the textual repair round-trips the analogous fixture
whose scene-identifying key is `scene_number` — the only key the source
recognises — yielding exactly two scenes with ordinals 1 and 2. -/
theorem C7_amended : extractRepair fixtureSceneNum =
    some (.obj [("scenes", .arr
      [ .obj [("scene_number", .num 1), ("description", .str "a")]
      , .obj [("scene_number", .num 2), ("description", .str "b")] ])]) := rfl

/-- C8: when the image-population loop completes, it preserves the scene
count; every scene whose extracted image was truthy (present and
non-empty) is left completely unchanged, and every other scene gets a
synthesized image attached in its image field. -/
theorem C8_thm (env : Env) (req : GenerateStoryRequest) (storyData : Json)
    (scenes out : List Json)
    (h : populate_scenes env req storyData scenes = .ok out) :
    out.length = scenes.length ∧
    ∀ i (hi : i < scenes.length) (ho : i < out.length),
      (((scenes.get ⟨i, hi⟩).getD "image" .null).truthy = true →
        out.get ⟨i, ho⟩ = scenes.get ⟨i, hi⟩) ∧
      (((scenes.get ⟨i, hi⟩).getD "image" .null).truthy = false →
        out.get ⟨i, ho⟩ = (scenes.get ⟨i, hi⟩).set "image"
          (jsonOfOpt (generate_image env req.prompt "digital art"))) :=
  ⟨populate_scenes_length env req storyData scenes out h,
   populate_scenes_spec env req storyData scenes out h⟩

/-- C8 (witness): on a concrete pair of scenes — one with a pre-existing
image `KEEP`, one with none — the loop completes, keeps the first scene
verbatim and attaches the synthesized mock image to the second. -/
theorem C8_witness :
    outKeep.length = scenesKeep.length ∧
    ∀ i (hi : i < scenesKeep.length) (ho : i < outKeep.length),
      (((scenesKeep.get ⟨i, hi⟩).getD "image" .null).truthy = true →
        outKeep.get ⟨i, ho⟩ = scenesKeep.get ⟨i, hi⟩) ∧
      (((scenesKeep.get ⟨i, hi⟩).getD "image" .null).truthy = false →
        outKeep.get ⟨i, ho⟩ = (scenesKeep.get ⟨i, hi⟩).set "image"
          (jsonOfOpt (generate_image envNoProviders reqThree.prompt "digital art"))) :=
  C8_thm envNoProviders reqThree storyKeep scenesKeep outKeep rfl

/-- C9: the style-selection line is a genuine code bug — the
three-positional-argument lookup raises `TypeError` as soon as a scene
has non-empty text, so the style never equals the narrative's theme tag;
the whole extracted story is then discarded for the fallback narrative. -/
theorem C9_thm :
    populate_scene envLlmText reqThree storyWithText sceneWithText
      = .error .typeError ∧
    execute envLlmText reqThree
      = .ok (.output (fallbackStoryData envLlmText reqThree)) :=
  ⟨rfl, rfl⟩

/-- C10: the deterministic renderer's layout is a function of the
description alone — for any description and any two styles, the wrapped
text lines and the decorative gradient background coincide, so repeated
calls with the same description render the same layout. -/
theorem C10_thm (d s1 s2 : String) :
    (mockRender d s1).lines = (mockRender d s2).lines ∧
    (mockRender d s1).background = (mockRender d s2).background :=
  ⟨rfl, rfl⟩
